import Mathlib

/-!
Shallow embedding of the ExecutionOS service layer
(src/frontend/src/services/{projects,tasks,activity,auth}.ts).

The external document store is modelled as an explicit `Store` value holding
the four backend collections.  Every service call is a pure function from a
`Store` (plus the clock value the TypeScript code obtains from
`new Date().toISOString()`) to a triple: the call's result (an `Except` over
the spec's error taxonomy), the updated store, and the ordered trace of
remote calls the function issued.  Document creation allocates fresh ids
from a counter, mirroring the platform's id assignment.
-/

namespace ExecutionOS

/-- The platform's `Document<T>` wrapper: a document id plus its data. -/
structure Doc (α : Type) where
  id : String
  data : α
deriving Repr, DecidableEq

/-- Data of a `projects` document. -/
structure Project where
  name : String
  ownerId : String
  createdAt : String
deriving Repr, DecidableEq

/-- Data of a `project_members` document. -/
structure ProjectMember where
  projectId : String
  userId : String
  joinedAt : String
deriving Repr, DecidableEq

/-- Data of a `tasks` document.  `status` is kept as a string because the
service validates it dynamically against the three allowed values; the
optional fields are stored as `Option` (TypeScript `null` / absent). -/
structure Task where
  projectId : String
  title : String
  description : Option String
  status : String
  assigneeId : Option String
  dueDate : Option String
  createdAt : String
  updatedAt : String
deriving Repr, DecidableEq

/-- Data of an `activity_logs` document. -/
structure ActivityLog where
  projectId : String
  actorId : String
  entityType : String
  entityId : String
  action : String
  createdAt : String
deriving Repr, DecidableEq

/-- The document store: the four backend collections plus the id counter
used to assign fresh document ids. -/
structure Store where
  projects : List (Doc Project)
  members : List (Doc ProjectMember)
  tasks : List (Doc Task)
  logs : List (Doc ActivityLog)
  nextId : Nat
deriving Repr, DecidableEq

/-- Error taxonomy of the spec, attached to the messages the TypeScript
code throws. -/
inductive SvcError where
  | validation (msg : String)
  | authorization (msg : String)
  | conflict (msg : String)
  | notFound (msg : String)
deriving Repr, DecidableEq

/-- One remote call issued by a service function, in program order.
`create` and `update` are the writes; `get` and `listq` are the reads
(document fetch and filtered listing).  The service layer issues no
delete calls at all. -/
inductive RemoteEvent where
  | create (collection : String) (id : String)
  | update (collection : String) (id : String)
  | get (collection : String) (id : String)
  | listq (collection : String)
deriving Repr, DecidableEq

/-- Result of one service call: the returned value or error, the store
after the call, and the trace of remote calls issued. -/
def SvcResult (α : Type) : Type := Except SvcError α × Store × List RemoteEvent

/-- Fresh document id assigned by the store for the n-th created document. -/
def freshId (n : Nat) : String := "doc" ++ toString n

/-- The platform's filtered listing over `project_members`
(`cocobase.listDocuments("project_members", { filters, limit })`). -/
def listDocumentsMembers (s : Store) (flt : Doc ProjectMember → Bool) (limit : Nat) :
    List (Doc ProjectMember) :=
  (s.members.filter flt).take limit

/-- The platform's filtered listing over `tasks`. -/
def listDocumentsTasks (s : Store) (flt : Doc Task → Bool) (limit : Nat) :
    List (Doc Task) :=
  (s.tasks.filter flt).take limit

/-- The platform's `getDocument("projects", id)`: the document, or a
not-found failure. -/
def getProject (s : Store) (id : String) : Except SvcError (Doc Project) :=
  match s.projects.find? (fun d => d.id == id) with
  | some d => .ok d
  | none => .error (.notFound ("projects/" ++ id))

/-- The platform's `getDocument("tasks", id)`. -/
def getTask (s : Store) (id : String) : Except SvcError (Doc Task) :=
  match s.tasks.find? (fun d => d.id == id) with
  | some d => .ok d
  | none => .error (.notFound ("tasks/" ++ id))

/-- The platform's `createDocument("projects", data)`. -/
def createProjectDoc (s : Store) (p : Project) : Doc Project × Store :=
  let d : Doc Project := ⟨freshId s.nextId, p⟩
  (d, { s with projects := s.projects ++ [d], nextId := s.nextId + 1 })

/-- The platform's `createDocument("project_members", data)`. -/
def createMemberDoc (s : Store) (m : ProjectMember) : Doc ProjectMember × Store :=
  let d : Doc ProjectMember := ⟨freshId s.nextId, m⟩
  (d, { s with members := s.members ++ [d], nextId := s.nextId + 1 })

/-- The platform's `createDocument("tasks", data)`. -/
def createTaskDoc (s : Store) (t : Task) : Doc Task × Store :=
  let d : Doc Task := ⟨freshId s.nextId, t⟩
  (d, { s with tasks := s.tasks ++ [d], nextId := s.nextId + 1 })

/-- The platform's `createDocument("activity_logs", data)`. -/
def createLogDoc (s : Store) (l : ActivityLog) : Doc ActivityLog × Store :=
  let d : Doc ActivityLog := ⟨freshId s.nextId, l⟩
  (d, { s with logs := s.logs ++ [d], nextId := s.nextId + 1 })

/-- The platform's `updateDocument("tasks", id, patch)`: patches the stored
document and returns the updated document, or a not-found failure. -/
def updateTaskDoc (s : Store) (id : String) (patch : Task → Task) :
    Except SvcError (Doc Task × Store) :=
  match s.tasks.find? (fun d => d.id == id) with
  | some d =>
    let d2 : Doc Task := ⟨d.id, patch d.data⟩
    .ok (d2, { s with tasks := s.tasks.map (fun x => if x.id == id then d2 else x) })
  | none => .error (.notFound ("tasks/" ++ id))

/-- TypeScript truthiness of an optional string argument
(`if (assigneeId) ...`): false for absent, null, or the empty string. -/
def strTruthy : Option String → Bool
  | none => false
  | some v => v ≠ ""

/-- Service `createProject(ownerId, name)` from projects.ts: validates the
arguments, then writes the project, the owner membership, and the activity
log entry, in that order. -/
def createProject (s : Store) (ownerId name now : String) : SvcResult (Doc Project) :=
  if ownerId = "" then (.error (.validation "ownerId is required"), s, [])
  else if name = "" then (.error (.validation "project name is required"), s, [])
  else
    let createdAt := now
    let (project, s1) := createProjectDoc s
      { name := name, ownerId := ownerId, createdAt := createdAt }
    let (member, s2) := createMemberDoc s1
      { projectId := project.id, userId := ownerId, joinedAt := createdAt }
    let (log, s3) := createLogDoc s2
      { projectId := project.id, actorId := ownerId, entityType := "project",
        entityId := project.id, action := "create", createdAt := createdAt }
    (.ok project, s3,
      [.create "projects" project.id, .create "project_members" member.id,
       .create "activity_logs" log.id])

/-- Model of `Promise.all` over the per-membership project fetches in
`listUserProjects`: every fetch is issued, and the sequence resolves to the
results in input order, or rejects with a failure. -/
def promiseAll {ε α β : Type} (f : α → Except ε β) : List α → Except ε (List β)
  | [] => .ok []
  | x :: xs =>
    match f x with
    | .error e => .error e
    | .ok y =>
      match promiseAll f xs with
      | .error e => .error e
      | .ok ys => .ok (y :: ys)

/-- Service `listUserProjects(userId)` from projects.ts: lists the user's
memberships (limit 100), returns `[]` when there are none, otherwise
fetches each referenced project. -/
def listUserProjects (s : Store) (userId : String) : SvcResult (List (Doc Project)) :=
  if userId = "" then (.error (.validation "userId is required"), s, [])
  else
    let memberships := listDocumentsMembers s (fun d => d.data.userId == userId) 100
    if memberships.isEmpty then (.ok [], s, [.listq "project_members"])
    else
      let trace : List RemoteEvent :=
        .listq "project_members" ::
          memberships.map (fun m => .get "projects" m.data.projectId)
      match promiseAll (fun m => getProject s m.data.projectId) memberships with
      | .ok projects => (.ok projects, s, trace)
      | .error e => (.error e, s, trace)

/-- Service `addUserToProject(projectId, userId, actorId)` from projects.ts:
validates the arguments, checks the actor's membership, rejects duplicate
membership, then writes the membership and the activity log entry. -/
def addUserToProject (s : Store) (projectId userId actorId now : String) :
    SvcResult (Doc ProjectMember) :=
  if projectId = "" then (.error (.validation "projectId is required"), s, [])
  else if userId = "" then (.error (.validation "userId is required"), s, [])
  else if actorId = "" then (.error (.validation "actorId is required"), s, [])
  else
    let actorMemberships := listDocumentsMembers s
      (fun d => d.data.projectId == projectId && d.data.userId == actorId) 1
    if actorMemberships.isEmpty then
      (.error (.authorization "actor is not a member of the project"), s,
       [.listq "project_members"])
    else
      let exists2 := listDocumentsMembers s
        (fun d => d.data.projectId == projectId && d.data.userId == userId) 1
      if !exists2.isEmpty then
        (.error (.conflict "user is already a member of the project"), s,
         [.listq "project_members", .listq "project_members"])
      else
        let joinedAt := now
        let (member, s1) := createMemberDoc s
          { projectId := projectId, userId := userId, joinedAt := joinedAt }
        let (log, s2) := createLogDoc s1
          { projectId := projectId, actorId := actorId, entityType := "project_member",
            entityId := member.id, action := "add_member", createdAt := joinedAt }
        (.ok member, s2,
         [.listq "project_members", .listq "project_members",
          .create "project_members" member.id, .create "activity_logs" log.id])

/-- Membership policy `isProjectMember(userId, projectId)` from tasks.ts:
false when either id is empty, else true iff a matching membership
document exists (limit-1 query). -/
def isProjectMember (s : Store) (userId projectId : String) : Bool :=
  if userId = "" || projectId = "" then false
  else
    !(listDocumentsMembers s
        (fun d => d.data.projectId == projectId && d.data.userId == userId) 1).isEmpty

/-- Service `createTask(actorId, projectId, title, description?, assigneeId?,
dueDate?)` from tasks.ts: validates the required arguments, checks the
actor's membership, checks the assignee's membership only when the
assignee argument is truthy, then writes the task (status "todo") and the
activity log entry. -/
def createTask (s : Store) (actorId projectId title : String)
    (description assigneeId dueDate : Option String) (now : String) :
    SvcResult (Doc Task) :=
  if actorId = "" then (.error (.validation "actorId is required"), s, [])
  else if projectId = "" then (.error (.validation "projectId is required"), s, [])
  else if title = "" then (.error (.validation "title is required"), s, [])
  else if !(isProjectMember s actorId projectId) then
    (.error (.authorization "actor is not a member of the project"), s,
     [.listq "project_members"])
  else if strTruthy assigneeId && !(isProjectMember s (assigneeId.getD "") projectId) then
    (.error (.authorization "assignee is not a member of the project"), s,
     [.listq "project_members", .listq "project_members"])
  else
    let preReads : List RemoteEvent :=
      if strTruthy assigneeId then [.listq "project_members", .listq "project_members"]
      else [.listq "project_members"]
    let (task, s1) := createTaskDoc s
      { projectId := projectId, title := title, description := description,
        status := "todo", assigneeId := assigneeId, dueDate := dueDate,
        createdAt := now, updatedAt := now }
    let (log, s2) := createLogDoc s1
      { projectId := projectId, actorId := actorId, entityType := "task",
        entityId := task.id, action := "create", createdAt := now }
    (.ok task, s2, preReads ++ [.create "tasks" task.id, .create "activity_logs" log.id])

/-- Service `assignTask(actorId, taskId, assigneeId)` from tasks.ts:
validates the arguments, fetches the task, checks actor and assignee
membership in the task's project, patches `assigneeId` and `updatedAt`,
then writes the activity log entry. -/
def assignTask (s : Store) (actorId taskId assigneeId now : String) :
    SvcResult (Doc Task) :=
  if actorId = "" then (.error (.validation "actorId is required"), s, [])
  else if taskId = "" then (.error (.validation "taskId is required"), s, [])
  else if assigneeId = "" then (.error (.validation "assigneeId is required"), s, [])
  else
    match getTask s taskId with
    | .error e => (.error e, s, [.get "tasks" taskId])
    | .ok task =>
      let projectId := task.data.projectId
      if !(isProjectMember s actorId projectId) then
        (.error (.authorization "actor is not a member of the project"), s,
         [.get "tasks" taskId, .listq "project_members"])
      else if !(isProjectMember s assigneeId projectId) then
        (.error (.authorization "assignee is not a member of the project"), s,
         [.get "tasks" taskId, .listq "project_members", .listq "project_members"])
      else
        match updateTaskDoc s taskId
            (fun t => { t with assigneeId := some assigneeId, updatedAt := now }) with
        | .error e =>
          (.error e, s,
           [.get "tasks" taskId, .listq "project_members", .listq "project_members",
            .update "tasks" taskId])
        | .ok (updated, s1) =>
          let (log, s2) := createLogDoc s1
            { projectId := projectId, actorId := actorId, entityType := "task",
              entityId := taskId, action := "assign", createdAt := now }
          (.ok updated, s2,
           [.get "tasks" taskId, .listq "project_members", .listq "project_members",
            .update "tasks" taskId, .create "activity_logs" log.id])

/-- Service `updateTaskStatus(actorId, taskId, status)` from tasks.ts:
validates the arguments and the status value, fetches the task, checks the
actor's membership, patches `status` and `updatedAt`, then writes the
activity log entry with action "status:" followed by the new status. -/
def updateTaskStatus (s : Store) (actorId taskId status now : String) :
    SvcResult (Doc Task) :=
  if actorId = "" then (.error (.validation "actorId is required"), s, [])
  else if taskId = "" then (.error (.validation "taskId is required"), s, [])
  else if status = "" then (.error (.validation "status is required"), s, [])
  else if !(["todo", "doing", "done"].contains status) then
    (.error (.validation "invalid status"), s, [])
  else
    match getTask s taskId with
    | .error e => (.error e, s, [.get "tasks" taskId])
    | .ok task =>
      let projectId := task.data.projectId
      if !(isProjectMember s actorId projectId) then
        (.error (.authorization "actor is not a member of the project"), s,
         [.get "tasks" taskId, .listq "project_members"])
      else
        match updateTaskDoc s taskId
            (fun t => { t with status := status, updatedAt := now }) with
        | .error e =>
          (.error e, s,
           [.get "tasks" taskId, .listq "project_members", .update "tasks" taskId])
        | .ok (updated, s1) =>
          let (log, s2) := createLogDoc s1
            { projectId := projectId, actorId := actorId, entityType := "task",
              entityId := taskId, action := "status:" ++ status, createdAt := now }
          (.ok updated, s2,
           [.get "tasks" taskId, .listq "project_members", .update "tasks" taskId,
            .create "activity_logs" log.id])

/-- Service `listProjectTasks(projectId)` from tasks.ts: read-only listing
of up to 200 tasks of the project. -/
def listProjectTasks (s : Store) (projectId : String) : SvcResult (List (Doc Task)) :=
  if projectId = "" then (.error (.validation "projectId is required"), s, [])
  else
    (.ok (listDocumentsTasks s (fun d => d.data.projectId == projectId) 200), s,
     [.listq "tasks"])

/-- User object returned by the auth provider. -/
structure AppUser where
  id : String
  email : String
deriving Repr, DecidableEq

/-- Service `getCurrentUser()` from auth.ts, as a function of the auth
provider's observable behaviour: `isAuth` is the synchronous
`isAuthenticated()` answer and `fetchUser` the outcome of the remote
`auth.getCurrentUser()` call.  The body is wrapped in try/catch, so a
failing remote call is caught and `null` is returned. -/
def getCurrentUser (isAuth : Bool) (fetchUser : Except String (Option AppUser)) :
    Except String (Option AppUser) :=
  if !isAuth then .ok none
  else
    match fetchUser with
    | .ok u => .ok u
    | .error _ => .ok none

/-- The disposer returned by `subscribeActivityLogs` in activity.ts, as a
function of the outcome of `watcher.disconnect()`: the call is wrapped in
try/catch and any failure is swallowed. -/
def subscribeActivityLogsDisposer (disconnect : Except String Unit) :
    Except String Unit :=
  match disconnect with
  | .ok _ => .ok ()
  | .error _ => .ok ()

/-- Predicate on remote events: a document creation in `activity_logs`. -/
def isLogCreate : RemoteEvent → Bool
  | .create c _ => c == "activity_logs"
  | _ => false

/-- Predicate on remote events: an update of an `activity_logs` document
(the trace language has no delete event because the service layer never
issues one). -/
def isLogMutation : RemoteEvent → Bool
  | .update c _ => c == "activity_logs"
  | _ => false

/-- Predicate on remote events: a mutation of a primary entity (project,
membership or task document). -/
def isPrimaryMutation : RemoteEvent → Bool
  | .create c _ => c == "projects" || c == "project_members" || c == "tasks"
  | .update c _ => c == "tasks"
  | _ => false

/-- Predicate on remote events: any write (create or update). -/
def isWrite : RemoteEvent → Bool
  | .create _ _ => true
  | .update _ _ => true
  | _ => false

/-- Audit shape of a successful mutating call's trace: exactly one
activity-log creation, placed last, strictly after some primary entity
mutation. -/
def auditOk (tr : List RemoteEvent) : Prop :=
  (tr.filter isLogCreate).length = 1 ∧
  ∃ pre lid, tr = pre ++ [RemoteEvent.create "activity_logs" lid] ∧
    pre.any isPrimaryMutation = true

/-- The empty store. -/
def emptyStore : Store := { projects := [], members := [], tasks := [], logs := [], nextId := 0 }

/-- Store with one project "p1" whose sole member is "a1". -/
def storeA1 : Store :=
  { projects := [⟨"p1", { name := "Launch", ownerId := "a1", createdAt := "t0" }⟩],
    members := [⟨"m1", { projectId := "p1", userId := "a1", joinedAt := "t0" }⟩],
    tasks := [], logs := [], nextId := 0 }

/-- Store whose only membership is user "u2" in project "p1". -/
def storeU2 : Store :=
  { projects := [], members := [⟨"m1", { projectId := "p1", userId := "u2", joinedAt := "t0" }⟩],
    tasks := [], logs := [], nextId := 0 }

/-- Store with one membership referencing a project that does not exist. -/
def storeDangling : Store :=
  { projects := [], members := [⟨"m1", { projectId := "pX", userId := "u1", joinedAt := "t0" }⟩],
    tasks := [], logs := [], nextId := 0 }

/-- Store with project "p1", members "a1" and "u2", and one task "t1". -/
def storeTask : Store :=
  { projects := [⟨"p1", { name := "Launch", ownerId := "a1", createdAt := "t0" }⟩],
    members := [⟨"m1", { projectId := "p1", userId := "a1", joinedAt := "t0" }⟩,
                ⟨"m2", { projectId := "p1", userId := "u2", joinedAt := "t0" }⟩],
    tasks := [⟨"t1",
      { projectId := "p1", title := "Ship", description := none, status := "todo",
        assigneeId := none, dueDate := none, createdAt := "t0", updatedAt := "t0" }⟩],
    logs := [], nextId := 0 }

/-- Store where user "u1" belongs to the two projects "p1" and "p2". -/
def storeC7 : Store :=
  { projects := [⟨"p1", { name := "A", ownerId := "u1", createdAt := "t0" }⟩,
                 ⟨"p2", { name := "B", ownerId := "u1", createdAt := "t0" }⟩],
    members := [⟨"m1", { projectId := "p1", userId := "u1", joinedAt := "t0" }⟩,
                ⟨"m2", { projectId := "p2", userId := "u1", joinedAt := "t0" }⟩],
    tasks := [], logs := [], nextId := 0 }

/-- Taking one element of a list is empty exactly when the list is. -/
theorem take_one_isEmpty {α : Type} (l : List α) : (l.take 1).isEmpty = l.isEmpty := by
  cases l <;> simp

/-- Characterization of getTask success in terms of the stored list. -/
theorem getTask_ok_iff (s : Store) (id : String) (d : Doc Task) :
    getTask s id = .ok d ↔ s.tasks.find? (fun x => x.id == id) = some d := by
  unfold getTask
  cases hf : s.tasks.find? (fun x => x.id == id) <;> simp [hf]

/-- Success equation for createProject: with non-empty arguments the call
appends the project, the owner membership and the create/project log
entry, in that order, and returns the created project. -/
theorem createProject_success_eq (s : Store) (ownerId name now : String)
    (h1 : ownerId ≠ "") (h2 : name ≠ "") :
    createProject s ownerId name now =
      (.ok ⟨freshId s.nextId, { name := name, ownerId := ownerId, createdAt := now }⟩,
       { s with
          projects := s.projects ++
            [⟨freshId s.nextId, { name := name, ownerId := ownerId, createdAt := now }⟩],
          members := s.members ++
            [⟨freshId (s.nextId + 1),
              { projectId := freshId s.nextId, userId := ownerId, joinedAt := now }⟩],
          logs := s.logs ++
            [⟨freshId (s.nextId + 2),
              { projectId := freshId s.nextId, actorId := ownerId,
                entityType := "project", entityId := freshId s.nextId,
                action := "create", createdAt := now }⟩],
          nextId := s.nextId + 3 },
       [.create "projects" (freshId s.nextId),
        .create "project_members" (freshId (s.nextId + 1)),
        .create "activity_logs" (freshId (s.nextId + 2))]) := by
  simp [createProject, createProjectDoc, createMemberDoc, createLogDoc, h1, h2]

/-- Successful createProject calls have non-empty arguments. -/
theorem createProject_ok_inv (s : Store) (ownerId name now : String)
    (h : (createProject s ownerId name now).1.isOk = true) :
    ownerId ≠ "" ∧ name ≠ "" := by
  by_cases h1 : ownerId = ""
  · simp [createProject, h1, Except.isOk, Except.toBool] at h
  by_cases h2 : name = ""
  · simp [createProject, h1, h2, Except.isOk, Except.toBool] at h
  exact ⟨h1, h2⟩

/-- Success equation for createTask: with non-empty required arguments, a
member actor, and a passing assignee guard, the call appends the task
(status "todo") and the create/task log entry and returns the task. -/
theorem createTask_success_eq (s : Store) (actorId projectId title : String)
    (description assigneeId dueDate : Option String) (now : String)
    (h1 : actorId ≠ "") (h2 : projectId ≠ "") (h3 : title ≠ "")
    (hMem : isProjectMember s actorId projectId = true)
    (hAss : (strTruthy assigneeId &&
      !(isProjectMember s (assigneeId.getD "") projectId)) = false) :
    createTask s actorId projectId title description assigneeId dueDate now =
      (.ok ⟨freshId s.nextId,
        { projectId := projectId, title := title, description := description,
          status := "todo", assigneeId := assigneeId, dueDate := dueDate,
          createdAt := now, updatedAt := now }⟩,
       { s with
          tasks := s.tasks ++
            [⟨freshId s.nextId,
              { projectId := projectId, title := title, description := description,
                status := "todo", assigneeId := assigneeId, dueDate := dueDate,
                createdAt := now, updatedAt := now }⟩],
          logs := s.logs ++
            [⟨freshId (s.nextId + 1),
              { projectId := projectId, actorId := actorId, entityType := "task",
                entityId := freshId s.nextId, action := "create", createdAt := now }⟩],
          nextId := s.nextId + 2 },
       (if strTruthy assigneeId then
          [RemoteEvent.listq "project_members", RemoteEvent.listq "project_members"]
        else [RemoteEvent.listq "project_members"]) ++
         [.create "tasks" (freshId s.nextId),
          .create "activity_logs" (freshId (s.nextId + 1))]) := by
  simp [createTask, h1, h2, h3, hMem, hAss, createTaskDoc, createLogDoc]

/-- Successful createTask calls have non-empty required arguments, a
member actor, and a passing assignee guard. -/
theorem createTask_ok_inv (s : Store) (actorId projectId title : String)
    (description assigneeId dueDate : Option String) (now : String)
    (h : (createTask s actorId projectId title description assigneeId dueDate now).1.isOk
      = true) :
    actorId ≠ "" ∧ projectId ≠ "" ∧ title ≠ "" ∧
    isProjectMember s actorId projectId = true ∧
    (strTruthy assigneeId &&
      !(isProjectMember s (assigneeId.getD "") projectId)) = false := by
  by_cases h1 : actorId = ""
  · simp [createTask, h1, Except.isOk, Except.toBool] at h
  by_cases h2 : projectId = ""
  · simp [createTask, h1, h2, Except.isOk, Except.toBool] at h
  by_cases h3 : title = ""
  · simp [createTask, h1, h2, h3, Except.isOk, Except.toBool] at h
  by_cases hMem : isProjectMember s actorId projectId
  · by_cases hAss : (strTruthy assigneeId &&
      !(isProjectMember s (assigneeId.getD "") projectId)) = true
    · simp [createTask, h1, h2, h3, hMem, hAss, Except.isOk, Except.toBool] at h
    · exact ⟨h1, h2, h3, hMem, Bool.not_eq_true _ ▸ hAss⟩
  · rw [Bool.not_eq_true] at hMem
    simp [createTask, h1, h2, h3, hMem, Except.isOk, Except.toBool] at h

/-- Success equation for assignTask: with non-empty arguments, an existing
task, and member actor and assignee, the call patches the task's
assigneeId and updatedAt, appends the assign log entry, and returns the
updated task. -/
theorem assignTask_success_eq (s : Store) (actorId taskId assigneeId now : String)
    (task : Doc Task)
    (h1 : actorId ≠ "") (h2 : taskId ≠ "") (h3 : assigneeId ≠ "")
    (hfind : s.tasks.find? (fun d => d.id == taskId) = some task)
    (hA : isProjectMember s actorId task.data.projectId = true)
    (hB : isProjectMember s assigneeId task.data.projectId = true) :
    assignTask s actorId taskId assigneeId now =
      (.ok ⟨task.id, { task.data with assigneeId := some assigneeId, updatedAt := now }⟩,
       { s with
          tasks := s.tasks.map (fun x => if x.id == taskId then
            ⟨task.id, { task.data with assigneeId := some assigneeId, updatedAt := now }⟩
            else x),
          logs := s.logs ++
            [⟨freshId s.nextId,
              { projectId := task.data.projectId, actorId := actorId, entityType := "task",
                entityId := taskId, action := "assign", createdAt := now }⟩],
          nextId := s.nextId + 1 },
       [.get "tasks" taskId, .listq "project_members", .listq "project_members",
        .update "tasks" taskId, .create "activity_logs" (freshId s.nextId)]) := by
  simp [assignTask, getTask, updateTaskDoc, hfind, h1, h2, h3, hA, hB, createLogDoc]

/-- Successful assignTask calls have non-empty arguments, an existing
task, and member actor and assignee. -/
theorem assignTask_ok_inv (s : Store) (actorId taskId assigneeId now : String)
    (h : (assignTask s actorId taskId assigneeId now).1.isOk = true) :
    actorId ≠ "" ∧ taskId ≠ "" ∧ assigneeId ≠ "" ∧
    ∃ task, s.tasks.find? (fun d => d.id == taskId) = some task ∧
      isProjectMember s actorId task.data.projectId = true ∧
      isProjectMember s assigneeId task.data.projectId = true := by
  by_cases h1 : actorId = ""
  · simp [assignTask, h1, Except.isOk, Except.toBool] at h
  by_cases h2 : taskId = ""
  · simp [assignTask, h1, h2, Except.isOk, Except.toBool] at h
  by_cases h3 : assigneeId = ""
  · simp [assignTask, h1, h2, h3, Except.isOk, Except.toBool] at h
  cases hfind : s.tasks.find? (fun d => d.id == taskId) with
  | none => simp [assignTask, getTask, hfind, h1, h2, h3, Except.isOk, Except.toBool] at h
  | some task =>
    by_cases hA : isProjectMember s actorId task.data.projectId
    · by_cases hB : isProjectMember s assigneeId task.data.projectId
      · exact ⟨h1, h2, h3, task, rfl, hA, hB⟩
      · rw [Bool.not_eq_true] at hB
        simp [assignTask, getTask, hfind, h1, h2, h3, hA, hB, Except.isOk, Except.toBool] at h
    · rw [Bool.not_eq_true] at hA
      simp [assignTask, getTask, hfind, h1, h2, h3, hA, Except.isOk, Except.toBool] at h

/-- Success equation for updateTaskStatus: with non-empty arguments, a
valid status, an existing task, and a member actor, the call patches the
task's status and updatedAt, appends the status log entry, and returns
the updated task. -/
theorem updateTaskStatus_success_eq (s : Store) (actorId taskId status now : String)
    (task : Doc Task)
    (h1 : actorId ≠ "") (h2 : taskId ≠ "")
    (hc : (["todo", "doing", "done"].contains status) = true)
    (hfind : s.tasks.find? (fun d => d.id == taskId) = some task)
    (hA : isProjectMember s actorId task.data.projectId = true) :
    updateTaskStatus s actorId taskId status now =
      (.ok ⟨task.id, { task.data with status := status, updatedAt := now }⟩,
       { s with
          tasks := s.tasks.map (fun x => if x.id == taskId then
            ⟨task.id, { task.data with status := status, updatedAt := now }⟩ else x),
          logs := s.logs ++
            [⟨freshId s.nextId,
              { projectId := task.data.projectId, actorId := actorId, entityType := "task",
                entityId := taskId, action := "status:" ++ status, createdAt := now }⟩],
          nextId := s.nextId + 1 },
       [.get "tasks" taskId, .listq "project_members", .update "tasks" taskId,
        .create "activity_logs" (freshId s.nextId)]) := by
  have hc2 : status = "todo" ∨ status = "doing" ∨ status = "done" := by simpa using hc
  rcases hc2 with rfl | rfl | rfl <;>
    simp [updateTaskStatus, getTask, updateTaskDoc, hfind, h1, h2, hA, createLogDoc]

/-- Successful updateTaskStatus calls have non-empty arguments, a valid
status, an existing task, and a member actor. -/
theorem updateTaskStatus_ok_inv (s : Store) (actorId taskId status now : String)
    (h : (updateTaskStatus s actorId taskId status now).1.isOk = true) :
    actorId ≠ "" ∧ taskId ≠ "" ∧
    (["todo", "doing", "done"].contains status) = true ∧
    ∃ task, s.tasks.find? (fun d => d.id == taskId) = some task ∧
      isProjectMember s actorId task.data.projectId = true := by
  by_cases h1 : actorId = ""
  · simp [updateTaskStatus, h1, Except.isOk, Except.toBool] at h
  by_cases h2 : taskId = ""
  · simp [updateTaskStatus, h1, h2, Except.isOk, Except.toBool] at h
  by_cases h3 : status = ""
  · simp [updateTaskStatus, h1, h2, h3, Except.isOk, Except.toBool] at h
  by_cases hc : (["todo", "doing", "done"].contains status) = true
  · have hc2 : status = "todo" ∨ status = "doing" ∨ status = "done" := by simpa using hc
    cases hfind : s.tasks.find? (fun d => d.id == taskId) with
    | none =>
      rcases hc2 with rfl | rfl | rfl <;>
        simp [updateTaskStatus, getTask, hfind, h1, h2, Except.isOk, Except.toBool] at h
    | some task =>
      by_cases hA : isProjectMember s actorId task.data.projectId
      · exact ⟨h1, h2, hc, task, rfl, hA⟩
      · rw [Bool.not_eq_true] at hA
        rcases hc2 with rfl | rfl | rfl <;>
          simp [updateTaskStatus, getTask, hfind, h1, h2, hA, Except.isOk, Except.toBool] at h
  · rw [Bool.not_eq_true] at hc
    have hc2 : ¬status = "todo" ∧ ¬status = "doing" ∧ ¬status = "done" := by simpa using hc
    simp [updateTaskStatus, h1, h2, h3, hc2.1, hc2.2.1, hc2.2.2,
      Except.isOk, Except.toBool] at h

/-- C2: with non-empty arguments, createProject writes the project, the
owner membership, and the create/project activity log entry, in that
sequence, and returns the created project; with an empty argument it
fails with ValidationError, touching nothing and issuing no remote call. -/
theorem createProject_spec (s : Store) (ownerId name now : String) :
    (ownerId ≠ "" → name ≠ "" →
      createProject s ownerId name now =
        (.ok ⟨freshId s.nextId, { name := name, ownerId := ownerId, createdAt := now }⟩,
         { s with
            projects := s.projects ++
              [⟨freshId s.nextId, { name := name, ownerId := ownerId, createdAt := now }⟩],
            members := s.members ++
              [⟨freshId (s.nextId + 1),
                { projectId := freshId s.nextId, userId := ownerId, joinedAt := now }⟩],
            logs := s.logs ++
              [⟨freshId (s.nextId + 2),
                { projectId := freshId s.nextId, actorId := ownerId,
                  entityType := "project", entityId := freshId s.nextId,
                  action := "create", createdAt := now }⟩],
            nextId := s.nextId + 3 },
         [.create "projects" (freshId s.nextId),
          .create "project_members" (freshId (s.nextId + 1)),
          .create "activity_logs" (freshId (s.nextId + 2))])) ∧
    ((ownerId = "" ∨ name = "") →
      ∃ msg, createProject s ownerId name now = (.error (.validation msg), s, [])) := by
  constructor
  · intro h1 h2
    simp [createProject, createProjectDoc, createMemberDoc, createLogDoc, h1, h2]
  · intro h
    by_cases ho : ownerId = ""
    · exact ⟨"ownerId is required", by simp [createProject, ho]⟩
    · rcases h with h | h
      · exact absurd h ho
      · exact ⟨"project name is required", by simp [createProject, ho, h]⟩

/-- Witness for C2 at a concrete input. -/
theorem createProject_spec_witness :
    createProject emptyStore "u1" "Launch" "t0" =
      (.ok ⟨"doc0", { name := "Launch", ownerId := "u1", createdAt := "t0" }⟩,
       { projects := [⟨"doc0", { name := "Launch", ownerId := "u1", createdAt := "t0" }⟩],
         members := [⟨"doc1", { projectId := "doc0", userId := "u1", joinedAt := "t0" }⟩],
         tasks := [],
         logs := [⟨"doc2",
           { projectId := "doc0", actorId := "u1", entityType := "project",
             entityId := "doc0", action := "create", createdAt := "t0" }⟩],
         nextId := 3 },
       [.create "projects" "doc0", .create "project_members" "doc1",
        .create "activity_logs" "doc2"]) :=
  (createProject_spec emptyStore "u1" "Launch" "t0").1 (by decide) (by decide)

/-- C4: with non-empty arguments, createTask for a non-member actor fails
with AuthorizationError, leaves the store unchanged, and issues only the
one membership read (so no Task and no ActivityLogEntry is created). -/
theorem createTask_nonmember_actor (s : Store) (actorId projectId title : String)
    (description assigneeId dueDate : Option String) (now : String)
    (h1 : actorId ≠ "") (h2 : projectId ≠ "") (h3 : title ≠ "")
    (h4 : isProjectMember s actorId projectId = false) :
    createTask s actorId projectId title description assigneeId dueDate now =
      (.error (.authorization "actor is not a member of the project"), s,
       [RemoteEvent.listq "project_members"]) := by
  simp [createTask, h1, h2, h3, h4]

/-- Witness for C4 at a concrete input. -/
theorem createTask_nonmember_actor_witness :
    createTask emptyStore "u9" "p1" "Ship" none none none "t1" =
      (.error (.authorization "actor is not a member of the project"), emptyStore,
       [RemoteEvent.listq "project_members"]) :=
  createTask_nonmember_actor emptyStore "u9" "p1" "Ship" none none none "t1"
    (by decide) (by decide) (by decide) (by decide)

/-- C10: when the actor has no membership record and the target user is
already a member, addUserToProject fails with AuthorizationError (the
actor check runs before the duplicate check), the store is unchanged, and
only the one membership read is issued (no document written). -/
theorem addUserToProject_actor_check_first (s : Store) (projectId userId actorId now : String)
    (h1 : projectId ≠ "") (h2 : userId ≠ "") (h3 : actorId ≠ "")
    (hActor : s.members.filter
      (fun d => d.data.projectId == projectId && d.data.userId == actorId) = [])
    (_hDup : s.members.filter
      (fun d => d.data.projectId == projectId && d.data.userId == userId) ≠ []) :
    addUserToProject s projectId userId actorId now =
      (.error (.authorization "actor is not a member of the project"), s,
       [RemoteEvent.listq "project_members"]) := by
  simp [addUserToProject, listDocumentsMembers, h1, h2, h3, hActor]

/-- Witness for C10 at a concrete input. -/
theorem addUserToProject_actor_check_first_witness :
    addUserToProject storeU2 "p1" "u2" "x9" "t1" =
      (.error (.authorization "actor is not a member of the project"), storeU2,
       [RemoteEvent.listq "project_members"]) :=
  addUserToProject_actor_check_first storeU2 "p1" "u2" "x9" "t1"
    (by decide) (by decide) (by decide) (by decide) (by decide)

/-- C5 counterexample: the assignee argument is provided as the empty
string, which has no membership record, yet createTask succeeds instead
of failing with AuthorizationError (the truthiness guard skips the
assignee membership check). -/
theorem createTask_empty_assignee_counterexample :
    (createTask storeA1 "a1" "p1" "Ship" none (some "") none "t1").1.isOk = true ∧
    isProjectMember storeA1 "" "p1" = false := by decide

/-- C5 amended: when the provided assigneeId is non-empty and is not a
member of the project, createTask fails with AuthorizationError, leaves
the store unchanged, and performs no write. -/
theorem createTask_nonmember_assignee (s : Store) (actorId projectId title a : String)
    (description dueDate : Option String) (now : String)
    (h1 : actorId ≠ "") (h2 : projectId ≠ "") (h3 : title ≠ "") (hA : a ≠ "")
    (hAss : isProjectMember s a projectId = false) :
    (∃ msg, (createTask s actorId projectId title description (some a) dueDate now).1 =
      .error (.authorization msg)) ∧
    (createTask s actorId projectId title description (some a) dueDate now).2.1 = s ∧
    ∀ e ∈ (createTask s actorId projectId title description (some a) dueDate now).2.2,
      isWrite e = false := by
  by_cases hAct : isProjectMember s actorId projectId
  · refine ⟨⟨"assignee is not a member of the project", ?_⟩, ?_, ?_⟩ <;>
      simp [createTask, h1, h2, h3, hAct, strTruthy, hA, hAss, isWrite]
  · rw [Bool.not_eq_true] at hAct
    refine ⟨⟨"actor is not a member of the project", ?_⟩, ?_, ?_⟩ <;>
      simp [createTask, h1, h2, h3, hAct, isWrite]

/-- Witness for the amended C5 at a concrete input. -/
theorem createTask_nonmember_assignee_witness :
    (∃ msg, (createTask storeA1 "a1" "p1" "Ship" none (some "zz") none "t1").1 =
      .error (.authorization msg)) ∧
    (createTask storeA1 "a1" "p1" "Ship" none (some "zz") none "t1").2.1 = storeA1 ∧
    ∀ e ∈ (createTask storeA1 "a1" "p1" "Ship" none (some "zz") none "t1").2.2,
      isWrite e = false :=
  createTask_nonmember_assignee storeA1 "a1" "p1" "Ship" "zz" none none "t1"
    (by decide) (by decide) (by decide) (by decide) (by decide)

/-- Success equation for addUserToProject: with non-empty arguments, a
member actor and no duplicate membership, the call appends the membership
and the add_member log entry and returns the created membership. -/
theorem addUserToProject_success_eq (s : Store) (projectId userId actorId now : String)
    (hp : projectId ≠ "") (hu : userId ≠ "") (ha : actorId ≠ "")
    (hActor : (s.members.filter
      (fun d => d.data.projectId == projectId && d.data.userId == actorId)).isEmpty = false)
    (hDup : (s.members.filter
      (fun d => d.data.projectId == projectId && d.data.userId == userId)).isEmpty = true) :
    addUserToProject s projectId userId actorId now =
      (.ok ⟨freshId s.nextId, { projectId := projectId, userId := userId, joinedAt := now }⟩,
       { s with
          members := s.members ++
            [⟨freshId s.nextId, { projectId := projectId, userId := userId, joinedAt := now }⟩],
          logs := s.logs ++
            [⟨freshId (s.nextId + 1),
              { projectId := projectId, actorId := actorId, entityType := "project_member",
                entityId := freshId s.nextId, action := "add_member", createdAt := now }⟩],
          nextId := s.nextId + 2 },
       [.listq "project_members", .listq "project_members",
        .create "project_members" (freshId s.nextId),
        .create "activity_logs" (freshId (s.nextId + 1))]) := by
  simp [addUserToProject, listDocumentsMembers, take_one_isEmpty, hp, hu, ha, hActor, hDup,
    createMemberDoc, createLogDoc]

/-- Successful addUserToProject calls are exactly those with non-empty
arguments, a member actor, and no existing membership for the target
user. -/
theorem addUserToProject_ok_inv (s : Store) (projectId userId actorId now : String)
    (h : (addUserToProject s projectId userId actorId now).1.isOk = true) :
    projectId ≠ "" ∧ userId ≠ "" ∧ actorId ≠ "" ∧
    (s.members.filter
      (fun d => d.data.projectId == projectId && d.data.userId == actorId)).isEmpty = false ∧
    (s.members.filter
      (fun d => d.data.projectId == projectId && d.data.userId == userId)).isEmpty = true := by
  by_cases hp : projectId = ""
  · simp [addUserToProject, hp, Except.isOk, Except.toBool] at h
  by_cases hu : userId = ""
  · simp [addUserToProject, hp, hu, Except.isOk, Except.toBool] at h
  by_cases ha : actorId = ""
  · simp [addUserToProject, hp, hu, ha, Except.isOk, Except.toBool] at h
  by_cases hActor : (s.members.filter
      (fun d => d.data.projectId == projectId && d.data.userId == actorId)).isEmpty
  · simp [addUserToProject, listDocumentsMembers, take_one_isEmpty, hp, hu, ha, hActor,
      Except.isOk, Except.toBool] at h
  by_cases hDup : (s.members.filter
      (fun d => d.data.projectId == projectId && d.data.userId == userId)).isEmpty
  · exact ⟨hp, hu, ha, Bool.not_eq_true _ ▸ hActor, hDup⟩
  · simp [addUserToProject, listDocumentsMembers, take_one_isEmpty, hp, hu, ha, hActor, hDup,
      Except.isOk, Except.toBool] at h

/-- C3: after addUserToProject succeeds, isProjectMember answers true for
the added pair, and a second addUserToProject call with the same
(projectId, userId) pair by the same actor fails with ConflictError. -/
theorem addUserToProject_then_member_and_conflict
    (s : Store) (projectId userId actorId now now2 : String)
    (h : (addUserToProject s projectId userId actorId now).1.isOk = true) :
    isProjectMember (addUserToProject s projectId userId actorId now).2.1
      userId projectId = true ∧
    ∃ msg, (addUserToProject (addUserToProject s projectId userId actorId now).2.1
      projectId userId actorId now2).1 = .error (.conflict msg) := by
  obtain ⟨hp, hu, ha, hActor, hDup⟩ := addUserToProject_ok_inv s projectId userId actorId now h
  rw [addUserToProject_success_eq s projectId userId actorId now hp hu ha hActor hDup]
  constructor
  · simp [isProjectMember, hp, hu, listDocumentsMembers, take_one_isEmpty, List.filter_append]
  · refine ⟨"user is already a member of the project", ?_⟩
    simp [addUserToProject, hp, hu, ha, listDocumentsMembers, take_one_isEmpty,
      List.filter_append, hActor, hDup]
    rw [if_neg]
    simp only [List.isEmpty_eq_false, ne_eq, List.filter_eq_nil_iff] at hActor
    push_neg at hActor
    obtain ⟨a, haMem, haP⟩ := hActor
    simp at haP
    intro hC
    exact (hC.1 a haMem haP.1) haP.2

/-- Witness for C3 at a concrete input. -/
theorem addUserToProject_then_member_and_conflict_witness :
    isProjectMember (addUserToProject storeA1 "p1" "u2" "a1" "t1").2.1 "u2" "p1" = true ∧
    ∃ msg, (addUserToProject (addUserToProject storeA1 "p1" "u2" "a1" "t1").2.1
      "p1" "u2" "a1" "t2").1 = .error (.conflict msg) :=
  addUserToProject_then_member_and_conflict storeA1 "p1" "u2" "a1" "t1" "t2" (by decide)

/-- C8 counterexample: getCurrentUser is a service operation outside the
realtime-disposer cleanup path, yet when the remote auth call fails its
error is silently discarded and null is returned. -/
theorem getCurrentUser_swallows_counterexample :
    getCurrentUser true (.error "network failure") = .ok none := rfl

/-- C8 amended: the document-store service functions propagate remote-call
failures to the caller (shown for the task fetch in assignTask and
updateTaskStatus and the project fetches in listUserProjects); the
disposer returned by subscribeActivityLogs swallows any disconnect
failure (so calling it on a closed channel is a no-op), and
getCurrentUser additionally swallows auth-provider failures, returning
null. -/
theorem error_propagation_amended :
    (∀ r : Except String Unit, subscribeActivityLogsDisposer r = .ok ()) ∧
    (∀ (e : String) (isAuth : Bool), getCurrentUser isAuth (.error e) = .ok none) ∧
    (∀ (s : Store) (actorId taskId assigneeId now : String) (e : SvcError),
      actorId ≠ "" → taskId ≠ "" → assigneeId ≠ "" →
      getTask s taskId = .error e →
      (assignTask s actorId taskId assigneeId now).1 = .error e) ∧
    (∀ (s : Store) (actorId taskId now : String) (e : SvcError),
      actorId ≠ "" → taskId ≠ "" →
      getTask s taskId = .error e →
      (updateTaskStatus s actorId taskId "done" now).1 = .error e) ∧
    (∀ (s : Store) (userId : String) (e : SvcError),
      userId ≠ "" →
      promiseAll (fun m => getProject s m.data.projectId)
        (listDocumentsMembers s (fun d => d.data.userId == userId) 100) = .error e →
      (listUserProjects s userId).1 = .error e) := by
  refine ⟨?_, ?_, ?_, ?_, ?_⟩
  · intro r; cases r <;> rfl
  · intro e isAuth; cases isAuth <;> rfl
  · intro s actorId taskId assigneeId now e h1 h2 h3 hget
    simp [assignTask, h1, h2, h3, hget]
  · intro s actorId taskId now e h1 h2 hget
    simp [updateTaskStatus, h1, h2, hget]
  · intro s userId e h1 hp
    by_cases hm : (listDocumentsMembers s (fun d => d.data.userId == userId) 100).isEmpty
    · rw [List.isEmpty_iff] at hm
      rw [hm] at hp
      exact absurd hp (by simp [promiseAll])
    · simp [listUserProjects, h1, listDocumentsMembers] at hm ⊢
      simp [listDocumentsMembers] at hp
      simp [hp]
      rw [if_neg]
      intro hall
      obtain ⟨x, hx, hux⟩ := hm
      exact hall x hx hux

/-- Witness for the amended C8 at concrete inputs. -/
theorem error_propagation_amended_witness :
    subscribeActivityLogsDisposer (.error "already closed") = .ok () ∧
    getCurrentUser true (.error "netdown") = .ok none ∧
    (assignTask storeA1 "a1" "t9" "a1" "t1").1 = .error (.notFound "tasks/t9") ∧
    (updateTaskStatus storeA1 "a1" "t9" "done" "t1").1 = .error (.notFound "tasks/t9") ∧
    (listUserProjects storeDangling "u1").1 = .error (.notFound "projects/pX") :=
  ⟨error_propagation_amended.1 (.error "already closed"),
   error_propagation_amended.2.1 "netdown" true,
   error_propagation_amended.2.2.1 storeA1 "a1" "t9" "a1" "t1" (.notFound "tasks/t9")
     (by decide) (by decide) (by decide) rfl,
   error_propagation_amended.2.2.2.1 storeA1 "a1" "t9" "t1" (.notFound "tasks/t9")
     (by decide) (by decide) rfl,
   error_propagation_amended.2.2.2.2 storeDangling "u1" (.notFound "projects/pX")
     (by decide) rfl⟩

/-- C6: for an existing task and a member actor, updateTaskStatus accepts
any of the three statuses regardless of the task's current status, sets
the task's status to the given value, refreshes updatedAt, and writes one
activity log entry whose action is "status:" followed by the new status;
any status string outside the three values is rejected with
ValidationError before any remote call, so before the task fetch. -/
theorem updateTaskStatus_spec :
    (∀ (s : Store) (actorId taskId status now : String) (task : Doc Task),
      actorId ≠ "" → taskId ≠ "" →
      (["todo", "doing", "done"].contains status) = true →
      getTask s taskId = .ok task →
      isProjectMember s actorId task.data.projectId = true →
      updateTaskStatus s actorId taskId status now =
        (.ok ⟨task.id, { task.data with status := status, updatedAt := now }⟩,
         { s with
            tasks := s.tasks.map (fun x => if x.id == taskId then
              ⟨task.id, { task.data with status := status, updatedAt := now }⟩ else x),
            logs := s.logs ++
              [⟨freshId s.nextId,
                { projectId := task.data.projectId, actorId := actorId,
                  entityType := "task", entityId := taskId,
                  action := "status:" ++ status, createdAt := now }⟩],
            nextId := s.nextId + 1 },
         [.get "tasks" taskId, .listq "project_members", .update "tasks" taskId,
          .create "activity_logs" (freshId s.nextId)])) ∧
    (∀ (s : Store) (actorId taskId status now : String),
      (["todo", "doing", "done"].contains status) = false →
      ∃ msg, updateTaskStatus s actorId taskId status now =
        (.error (.validation msg), s, [])) := by
  constructor
  · intro s actorId taskId status now task h1 h2 hc hget hA
    exact updateTaskStatus_success_eq s actorId taskId status now task h1 h2 hc
      ((getTask_ok_iff s taskId task).1 hget) hA
  · intro s actorId taskId status now hBad
    by_cases h1 : actorId = ""
    · exact ⟨"actorId is required", by simp [updateTaskStatus, h1]⟩
    by_cases h2 : taskId = ""
    · exact ⟨"taskId is required", by simp [updateTaskStatus, h1, h2]⟩
    by_cases h3 : status = ""
    · exact ⟨"status is required", by simp [updateTaskStatus, h1, h2, h3]⟩
    · have hc2 : ¬status = "todo" ∧ ¬status = "doing" ∧ ¬status = "done" := by
        simpa using hBad
      exact ⟨"invalid status", by
        simp [updateTaskStatus, h1, h2, h3, hc2.1, hc2.2.1, hc2.2.2]⟩

/-- Witness for C6 at a concrete input. -/
theorem updateTaskStatus_spec_witness :
    updateTaskStatus storeTask "a1" "t1" "done" "t9" =
      (.ok ⟨"t1",
        { projectId := "p1", title := "Ship", description := none, status := "done",
          assigneeId := none, dueDate := none, createdAt := "t0", updatedAt := "t9" }⟩,
       { projects := [⟨"p1", { name := "Launch", ownerId := "a1", createdAt := "t0" }⟩],
         members := [⟨"m1", { projectId := "p1", userId := "a1", joinedAt := "t0" }⟩,
                     ⟨"m2", { projectId := "p1", userId := "u2", joinedAt := "t0" }⟩],
         tasks := [⟨"t1",
           { projectId := "p1", title := "Ship", description := none, status := "done",
             assigneeId := none, dueDate := none, createdAt := "t0", updatedAt := "t9" }⟩],
         logs := [⟨"doc0",
           { projectId := "p1", actorId := "a1", entityType := "task", entityId := "t1",
             action := "status:done", createdAt := "t9" }⟩],
         nextId := 1 },
       [.get "tasks" "t1", .listq "project_members", .update "tasks" "t1",
        .create "activity_logs" "doc0"]) :=
  updateTaskStatus_spec.1 storeTask "a1" "t1" "done" "t9"
    ⟨"t1", { projectId := "p1", title := "Ship", description := none,
             status := "todo", assigneeId := none, dueDate := none,
             createdAt := "t0", updatedAt := "t0" }⟩
    (by decide) (by decide) (by decide) rfl (by decide)

/-- C9: a successful assignTask changes only the task's assigneeId and
updatedAt fields, and a successful updateTaskStatus changes only its
status and updatedAt fields; projectId, title, description, dueDate and
createdAt are unchanged by both, and no other task document changes. -/
theorem task_update_frame :
    (∀ (s : Store) (actorId taskId assigneeId now : String) (old : Doc Task),
      getTask s taskId = .ok old →
      (assignTask s actorId taskId assigneeId now).1.isOk = true →
      (assignTask s actorId taskId assigneeId now).1 =
        .ok ⟨old.id, { old.data with assigneeId := some assigneeId, updatedAt := now }⟩ ∧
      (assignTask s actorId taskId assigneeId now).2.1.tasks =
        s.tasks.map (fun d => if d.id == taskId then
          ⟨old.id, { old.data with assigneeId := some assigneeId, updatedAt := now }⟩
          else d)) ∧
    (∀ (s : Store) (actorId taskId status now : String) (old : Doc Task),
      getTask s taskId = .ok old →
      (updateTaskStatus s actorId taskId status now).1.isOk = true →
      (updateTaskStatus s actorId taskId status now).1 =
        .ok ⟨old.id, { old.data with status := status, updatedAt := now }⟩ ∧
      (updateTaskStatus s actorId taskId status now).2.1.tasks =
        s.tasks.map (fun d => if d.id == taskId then
          ⟨old.id, { old.data with status := status, updatedAt := now }⟩ else d)) := by
  constructor
  · intro s actorId taskId assigneeId now old hget hok
    obtain ⟨h1, h2, h3, task, hfind, hA, hB⟩ :=
      assignTask_ok_inv s actorId taskId assigneeId now hok
    have heq : task = old := by
      have h4 := (getTask_ok_iff s taskId old).1 hget
      rw [h4] at hfind
      exact (Option.some.inj hfind).symm
    subst heq
    rw [assignTask_success_eq s actorId taskId assigneeId now task h1 h2 h3 hfind hA hB]
    exact ⟨rfl, rfl⟩
  · intro s actorId taskId status now old hget hok
    obtain ⟨h1, h2, hc, task, hfind, hA⟩ :=
      updateTaskStatus_ok_inv s actorId taskId status now hok
    have heq : task = old := by
      have h4 := (getTask_ok_iff s taskId old).1 hget
      rw [h4] at hfind
      exact (Option.some.inj hfind).symm
    subst heq
    rw [updateTaskStatus_success_eq s actorId taskId status now task h1 h2 hc hfind hA]
    exact ⟨rfl, rfl⟩

/-- Witness for C9 at a concrete input. -/
theorem task_update_frame_witness :
    (assignTask storeTask "a1" "t1" "u2" "t9").1 =
      .ok ⟨"t1",
        { projectId := "p1", title := "Ship", description := none, status := "todo",
          assigneeId := some "u2", dueDate := none, createdAt := "t0", updatedAt := "t9" }⟩ ∧
    (assignTask storeTask "a1" "t1" "u2" "t9").2.1.tasks =
      storeTask.tasks.map (fun d => if d.id == "t1" then
        ⟨"t1",
          { projectId := "p1", title := "Ship", description := none, status := "todo",
            assigneeId := some "u2", dueDate := none, createdAt := "t0", updatedAt := "t9" }⟩
        else d) :=
  task_update_frame.1 storeTask "a1" "t1" "u2" "t9"
    ⟨"t1", { projectId := "p1", title := "Ship", description := none,
             status := "todo", assigneeId := none, dueDate := none,
             createdAt := "t0", updatedAt := "t0" }⟩
    rfl (by decide)

/-- promiseAll succeeds exactly with one result per input, in input
order. -/
theorem promiseAll_ok {ε α β : Type} (f : α → Except ε β) :
    ∀ (l : List α) (r : List β), promiseAll f l = .ok r →
      r.length = l.length ∧
      ∀ (i : Nat) (hi : i < l.length) (hr : i < r.length),
        f (l.get ⟨i, hi⟩) = .ok (r.get ⟨i, hr⟩) := by
  intro l
  induction l with
  | nil =>
    intro r hr
    simp [promiseAll] at hr
    subst hr
    exact ⟨rfl, fun i hi _ => absurd hi (by simp)⟩
  | cons x xs ih =>
    intro r hr
    simp only [promiseAll] at hr
    cases hfx : f x with
    | error e => rw [hfx] at hr; simp at hr
    | ok y =>
      rw [hfx] at hr
      cases hxs : promiseAll f xs with
      | error e => rw [hxs] at hr; simp at hr
      | ok ys =>
        rw [hxs] at hr
        simp at hr
        subst hr
        obtain ⟨hlen, hidx⟩ := ih ys hxs
        refine ⟨by simp [hlen], ?_⟩
        intro i hi hr2
        cases i with
        | zero => simpa using hfx
        | succ n =>
          simpa using hidx n (by simpa using hi) (by simpa using hr2)

/-- C7: listUserProjects rejects an empty userId with ValidationError,
looks up at most 100 membership rows, returns the empty list without
error when the user has no memberships, and on success returns exactly
one project per fetched membership row, in the order of the membership
sequence. -/
theorem listUserProjects_spec (s : Store) (userId : String) :
    (userId = "" →
      ∃ msg, listUserProjects s userId = (.error (.validation msg), s, [])) ∧
    (userId ≠ "" →
      (listDocumentsMembers s (fun d => d.data.userId == userId) 100).length ≤ 100 ∧
      (s.members.filter (fun d => d.data.userId == userId) = [] →
        listUserProjects s userId = (.ok [], s, [RemoteEvent.listq "project_members"])) ∧
      (∀ ps, (listUserProjects s userId).1 = .ok ps →
        ps.length =
          (listDocumentsMembers s (fun d => d.data.userId == userId) 100).length ∧
        ∀ (i : Nat)
          (hm : i < (listDocumentsMembers s (fun d => d.data.userId == userId) 100).length)
          (hi : i < ps.length),
          getProject s (((listDocumentsMembers s (fun d => d.data.userId == userId) 100).get
            ⟨i, hm⟩).data.projectId) = .ok (ps.get ⟨i, hi⟩))) := by
  refine ⟨?_, ?_⟩
  · intro h
    exact ⟨"userId is required", by simp [listUserProjects, h]⟩
  · intro h
    refine ⟨?_, ?_, ?_⟩
    · simp only [listDocumentsMembers]
      exact List.length_take_le 100 _
    · intro hf
      simp [listUserProjects, h, listDocumentsMembers, hf]
    · intro ps hps
      by_cases hm : (listDocumentsMembers s (fun d => d.data.userId == userId) 100).isEmpty
      · have hmm : listDocumentsMembers s (fun d => d.data.userId == userId) 100 = [] :=
          List.isEmpty_iff.1 hm
        have hps2 : ps = [] := by
          simp [listUserProjects, h, hm] at hps
          exact hps
        subst hps2
        simp [hmm]
      · cases hP : promiseAll (fun (m : Doc ProjectMember) => getProject s m.data.projectId)
            (listDocumentsMembers s (fun d => d.data.userId == userId) 100) with
        | error e => simp [listUserProjects, h, hm, hP] at hps
        | ok projects =>
          have hps2 : ps = projects := by
            simp [listUserProjects, h, hm, hP] at hps
            exact hps.symm
          subst hps2
          exact promiseAll_ok (fun (m : Doc ProjectMember) => getProject s m.data.projectId) _ ps hP

/-- createProject never issues an activity-log update. -/
theorem noLogMutation_createProject (s : Store) (ownerId name now : String) :
    ∀ e ∈ (createProject s ownerId name now).2.2, isLogMutation e = false := by
  intro e he
  by_cases h1 : ownerId = ""
  · simp [createProject, h1] at he
  by_cases h2 : name = ""
  · simp [createProject, h1, h2] at he
  · rw [createProject_success_eq s ownerId name now h1 h2] at he
    simp at he
    rcases he with rfl | rfl | rfl <;> simp [isLogMutation]

/-- addUserToProject never issues an activity-log update. -/
theorem noLogMutation_addUserToProject (s : Store) (projectId userId actorId now : String) :
    ∀ e ∈ (addUserToProject s projectId userId actorId now).2.2,
      isLogMutation e = false := by
  intro e he
  by_cases h1 : projectId = ""
  · simp [addUserToProject, h1] at he
  by_cases h2 : userId = ""
  · simp [addUserToProject, h1, h2] at he
  by_cases h3 : actorId = ""
  · simp [addUserToProject, h1, h2, h3] at he
  by_cases hActor : (s.members.filter
      (fun d => d.data.projectId == projectId && d.data.userId == actorId)).isEmpty
  · simp [addUserToProject, listDocumentsMembers, take_one_isEmpty, h1, h2, h3, hActor] at he
    subst he
    simp [isLogMutation]
  by_cases hDup : (s.members.filter
      (fun d => d.data.projectId == projectId && d.data.userId == userId)).isEmpty
  · rw [addUserToProject_success_eq s projectId userId actorId now h1 h2 h3
      (Bool.not_eq_true _ ▸ hActor) hDup] at he
    simp at he
    rcases he with rfl | rfl | rfl | rfl <;> simp [isLogMutation]
  · rw [Bool.not_eq_true] at hActor hDup
    simp [addUserToProject, listDocumentsMembers, take_one_isEmpty, h1, h2, h3,
      hActor, hDup] at he
    rcases he with rfl | rfl <;> simp [isLogMutation]

/-- createTask never issues an activity-log update. -/
theorem noLogMutation_createTask (s : Store) (actorId projectId title : String)
    (description assigneeId dueDate : Option String) (now : String) :
    ∀ e ∈ (createTask s actorId projectId title description assigneeId dueDate now).2.2,
      isLogMutation e = false := by
  intro e he
  by_cases h1 : actorId = ""
  · simp [createTask, h1] at he
  by_cases h2 : projectId = ""
  · simp [createTask, h1, h2] at he
  by_cases h3 : title = ""
  · simp [createTask, h1, h2, h3] at he
  by_cases hMem : isProjectMember s actorId projectId
  · by_cases hAss : (strTruthy assigneeId &&
      !(isProjectMember s (assigneeId.getD "") projectId)) = true
    · simp [createTask, h1, h2, h3, hMem, hAss] at he
      rcases he with rfl | rfl <;> simp [isLogMutation]
    · rw [createTask_success_eq s actorId projectId title description assigneeId dueDate now
        h1 h2 h3 hMem (Bool.not_eq_true _ ▸ hAss)] at he
      by_cases hT : strTruthy assigneeId = true
      · simp [hT] at he
        rcases he with rfl | rfl | rfl <;> simp [isLogMutation]
      · rw [Bool.not_eq_true] at hT
        simp [hT] at he
        rcases he with rfl | rfl | rfl <;> simp [isLogMutation]
  · rw [Bool.not_eq_true] at hMem
    simp [createTask, h1, h2, h3, hMem] at he
    subst he
    simp [isLogMutation]

/-- assignTask never issues an activity-log update. -/
theorem noLogMutation_assignTask (s : Store) (actorId taskId assigneeId now : String) :
    ∀ e ∈ (assignTask s actorId taskId assigneeId now).2.2, isLogMutation e = false := by
  intro e he
  by_cases h1 : actorId = ""
  · simp [assignTask, h1] at he
  by_cases h2 : taskId = ""
  · simp [assignTask, h1, h2] at he
  by_cases h3 : assigneeId = ""
  · simp [assignTask, h1, h2, h3] at he
  cases hfind : s.tasks.find? (fun d => d.id == taskId) with
  | none =>
    simp [assignTask, getTask, hfind, h1, h2, h3] at he
    subst he
    simp [isLogMutation]
  | some task =>
    by_cases hA : isProjectMember s actorId task.data.projectId
    · by_cases hB : isProjectMember s assigneeId task.data.projectId
      · rw [assignTask_success_eq s actorId taskId assigneeId now task
          h1 h2 h3 hfind hA hB] at he
        simp at he
        rcases he with rfl | rfl | rfl | rfl | rfl <;> simp [isLogMutation]
      · rw [Bool.not_eq_true] at hB
        simp [assignTask, getTask, hfind, h1, h2, h3, hA, hB] at he
        rcases he with rfl | rfl | rfl <;> simp [isLogMutation]
    · rw [Bool.not_eq_true] at hA
      simp [assignTask, getTask, hfind, h1, h2, h3, hA] at he
      rcases he with rfl | rfl <;> simp [isLogMutation]

/-- updateTaskStatus never issues an activity-log update. -/
theorem noLogMutation_updateTaskStatus (s : Store) (actorId taskId status now : String) :
    ∀ e ∈ (updateTaskStatus s actorId taskId status now).2.2, isLogMutation e = false := by
  intro e he
  by_cases h1 : actorId = ""
  · simp [updateTaskStatus, h1] at he
  by_cases h2 : taskId = ""
  · simp [updateTaskStatus, h1, h2] at he
  by_cases h3 : status = ""
  · simp [updateTaskStatus, h1, h2, h3] at he
  by_cases hc : (["todo", "doing", "done"].contains status) = true
  · have hc2 : status = "todo" ∨ status = "doing" ∨ status = "done" := by simpa using hc
    cases hfind : s.tasks.find? (fun d => d.id == taskId) with
    | none =>
      rcases hc2 with rfl | rfl | rfl <;>
        · simp [updateTaskStatus, getTask, hfind, h1, h2] at he
          subst he
          simp [isLogMutation]
    | some task =>
      by_cases hA : isProjectMember s actorId task.data.projectId
      · rw [updateTaskStatus_success_eq s actorId taskId status now task h1 h2 hc hfind hA]
          at he
        simp at he
        rcases he with rfl | rfl | rfl | rfl <;> simp [isLogMutation]
      · rw [Bool.not_eq_true] at hA
        rcases hc2 with rfl | rfl | rfl <;>
          · simp [updateTaskStatus, getTask, hfind, h1, h2, hA] at he
            rcases he with rfl | rfl <;> simp [isLogMutation]
  · rw [Bool.not_eq_true] at hc
    have hc2 : ¬status = "todo" ∧ ¬status = "doing" ∧ ¬status = "done" := by simpa using hc
    simp [updateTaskStatus, h1, h2, h3, hc2.1, hc2.2.1, hc2.2.2] at he

/-- A successful createProject run has the audit trace shape. -/
theorem auditOk_createProject (s : Store) (ownerId name now : String)
    (h : (createProject s ownerId name now).1.isOk = true) :
    auditOk (createProject s ownerId name now).2.2 := by
  obtain ⟨h1, h2⟩ := createProject_ok_inv s ownerId name now h
  rw [createProject_success_eq s ownerId name now h1 h2]
  unfold auditOk
  refine ⟨by simp [isLogCreate], [.create "projects" (freshId s.nextId),
    .create "project_members" (freshId (s.nextId + 1))], freshId (s.nextId + 2),
    rfl, by simp [isPrimaryMutation]⟩

/-- A successful addUserToProject run has the audit trace shape. -/
theorem auditOk_addUserToProject (s : Store) (projectId userId actorId now : String)
    (h : (addUserToProject s projectId userId actorId now).1.isOk = true) :
    auditOk (addUserToProject s projectId userId actorId now).2.2 := by
  obtain ⟨h1, h2, h3, hActor, hDup⟩ :=
    addUserToProject_ok_inv s projectId userId actorId now h
  rw [addUserToProject_success_eq s projectId userId actorId now h1 h2 h3 hActor hDup]
  unfold auditOk
  refine ⟨by simp [isLogCreate], [.listq "project_members", .listq "project_members",
    .create "project_members" (freshId s.nextId)], freshId (s.nextId + 1),
    rfl, by simp [isPrimaryMutation]⟩

/-- A successful createTask run has the audit trace shape. -/
theorem auditOk_createTask (s : Store) (actorId projectId title : String)
    (description assigneeId dueDate : Option String) (now : String)
    (h : (createTask s actorId projectId title description assigneeId dueDate now).1.isOk
      = true) :
    auditOk (createTask s actorId projectId title description assigneeId dueDate now).2.2 := by
  obtain ⟨h1, h2, h3, hMem, hAss⟩ :=
    createTask_ok_inv s actorId projectId title description assigneeId dueDate now h
  rw [createTask_success_eq s actorId projectId title description assigneeId dueDate now
    h1 h2 h3 hMem hAss]
  unfold auditOk
  by_cases hT : strTruthy assigneeId = true
  · refine ⟨by simp [hT, isLogCreate], [.listq "project_members", .listq "project_members",
      .create "tasks" (freshId s.nextId)], freshId (s.nextId + 1),
      by simp [hT], by simp [isPrimaryMutation]⟩
  · rw [Bool.not_eq_true] at hT
    refine ⟨by simp [hT, isLogCreate], [.listq "project_members",
      .create "tasks" (freshId s.nextId)], freshId (s.nextId + 1),
      by simp [hT], by simp [isPrimaryMutation]⟩

/-- A successful assignTask run has the audit trace shape. -/
theorem auditOk_assignTask (s : Store) (actorId taskId assigneeId now : String)
    (h : (assignTask s actorId taskId assigneeId now).1.isOk = true) :
    auditOk (assignTask s actorId taskId assigneeId now).2.2 := by
  obtain ⟨h1, h2, h3, task, hfind, hA, hB⟩ :=
    assignTask_ok_inv s actorId taskId assigneeId now h
  rw [assignTask_success_eq s actorId taskId assigneeId now task h1 h2 h3 hfind hA hB]
  unfold auditOk
  refine ⟨by simp [isLogCreate], [.get "tasks" taskId, .listq "project_members",
    .listq "project_members", .update "tasks" taskId], freshId s.nextId,
    rfl, by simp [isPrimaryMutation]⟩

/-- A successful updateTaskStatus run has the audit trace shape. -/
theorem auditOk_updateTaskStatus (s : Store) (actorId taskId status now : String)
    (h : (updateTaskStatus s actorId taskId status now).1.isOk = true) :
    auditOk (updateTaskStatus s actorId taskId status now).2.2 := by
  obtain ⟨h1, h2, hc, task, hfind, hA⟩ :=
    updateTaskStatus_ok_inv s actorId taskId status now h
  rw [updateTaskStatus_success_eq s actorId taskId status now task h1 h2 hc hfind hA]
  unfold auditOk
  refine ⟨by simp [isLogCreate], [.get "tasks" taskId, .listq "project_members",
    .update "tasks" taskId], freshId s.nextId,
    rfl, by simp [isPrimaryMutation]⟩

/-- C1: every successful run of the five mutating operations issues
exactly one activity-log document creation, as its final remote call,
strictly after a mutation of the primary entity; and no run of any of
them, successful or failed, ever issues an update of an activity_logs
document (the service layer has no delete call at all, so activity_logs
entries are never updated or deleted). -/
theorem activity_log_audit :
    (∀ (s : Store) (ownerId name now : String),
      ((createProject s ownerId name now).1.isOk = true →
        auditOk (createProject s ownerId name now).2.2) ∧
      ∀ e ∈ (createProject s ownerId name now).2.2, isLogMutation e = false) ∧
    (∀ (s : Store) (projectId userId actorId now : String),
      ((addUserToProject s projectId userId actorId now).1.isOk = true →
        auditOk (addUserToProject s projectId userId actorId now).2.2) ∧
      ∀ e ∈ (addUserToProject s projectId userId actorId now).2.2,
        isLogMutation e = false) ∧
    (∀ (s : Store) (actorId projectId title : String)
        (description assigneeId dueDate : Option String) (now : String),
      ((createTask s actorId projectId title description assigneeId dueDate now).1.isOk
          = true →
        auditOk (createTask s actorId projectId title description assigneeId dueDate
          now).2.2) ∧
      ∀ e ∈ (createTask s actorId projectId title description assigneeId dueDate now).2.2,
        isLogMutation e = false) ∧
    (∀ (s : Store) (actorId taskId assigneeId now : String),
      ((assignTask s actorId taskId assigneeId now).1.isOk = true →
        auditOk (assignTask s actorId taskId assigneeId now).2.2) ∧
      ∀ e ∈ (assignTask s actorId taskId assigneeId now).2.2, isLogMutation e = false) ∧
    (∀ (s : Store) (actorId taskId status now : String),
      ((updateTaskStatus s actorId taskId status now).1.isOk = true →
        auditOk (updateTaskStatus s actorId taskId status now).2.2) ∧
      ∀ e ∈ (updateTaskStatus s actorId taskId status now).2.2,
        isLogMutation e = false) :=
  ⟨fun s ownerId name now =>
    ⟨auditOk_createProject s ownerId name now,
     noLogMutation_createProject s ownerId name now⟩,
   fun s projectId userId actorId now =>
    ⟨auditOk_addUserToProject s projectId userId actorId now,
     noLogMutation_addUserToProject s projectId userId actorId now⟩,
   fun s actorId projectId title description assigneeId dueDate now =>
    ⟨auditOk_createTask s actorId projectId title description assigneeId dueDate now,
     noLogMutation_createTask s actorId projectId title description assigneeId dueDate now⟩,
   fun s actorId taskId assigneeId now =>
    ⟨auditOk_assignTask s actorId taskId assigneeId now,
     noLogMutation_assignTask s actorId taskId assigneeId now⟩,
   fun s actorId taskId status now =>
    ⟨auditOk_updateTaskStatus s actorId taskId status now,
     noLogMutation_updateTaskStatus s actorId taskId status now⟩⟩

/-- Witness for C1 at a concrete input. -/
theorem activity_log_audit_witness :
    auditOk (createProject emptyStore "u1" "Launch" "t0").2.2 :=
  (activity_log_audit.1 emptyStore "u1" "Launch" "t0").1 (by decide)

/-- Witness for C7 at a concrete input. -/
theorem listUserProjects_spec_witness :
    ([⟨"p1", { name := "A", ownerId := "u1", createdAt := "t0" }⟩,
      ⟨"p2", { name := "B", ownerId := "u1", createdAt := "t0" }⟩] :
        List (Doc Project)).length =
      (listDocumentsMembers storeC7 (fun d => d.data.userId == "u1") 100).length ∧
    getProject storeC7
      (((listDocumentsMembers storeC7 (fun d => d.data.userId == "u1") 100).get
        ⟨0, by decide⟩).data.projectId) =
      .ok (([⟨"p1", { name := "A", ownerId := "u1", createdAt := "t0" }⟩,
        ⟨"p2", { name := "B", ownerId := "u1", createdAt := "t0" }⟩] :
          List (Doc Project)).get ⟨0, by decide⟩) := by
  have h := ((listUserProjects_spec storeC7 "u1").2 (by decide)).2.2
    [⟨"p1", { name := "A", ownerId := "u1", createdAt := "t0" }⟩,
     ⟨"p2", { name := "B", ownerId := "u1", createdAt := "t0" }⟩] rfl
  exact ⟨h.1, h.2 0 (by decide) (by decide)⟩

end ExecutionOS
